import Mathlib

set_option maxRecDepth 10000
set_option autoImplicit false

/-!
Shallow embedding of the backend process supervision subsystem of the
XFactor Bot desktop shell (`src/desktop/src-tauri/src/lib.rs`), together
with theorems settling the specification claims about it.

The effectful Rust code is embedded as pure Lean functions over an explicit
state (`BackendState`) and explicit environment records describing the
outcomes of OS interactions (TCP connect, process spawn, filesystem
existence, `pgrep`/`lsof` output).  Each operation additionally returns the
ordered list of externally visible actions (`Action`) it performs (signals
sent, processes spawned, sleeps), mirroring the order of the corresponding
statements in the source.  Results of `kill`/`taskkill` invocations are
discarded in the source (`let _ = ...`), so they do not appear in the
environments: no control flow in the source depends on them.  The Unix
(`cfg(unix)`) variants of the platform-conditional code are the ones
embedded.
-/

namespace XFactor

/-- Outcome classes of a failed TCP connection attempt. -/
inductive ConnError where
  | refused
  | timeout
  | unreachable
deriving DecidableEq, Repr

/-- Environment fact for the health probe: the outcome of
`TcpStream::connect_timeout("127.0.0.1:9876", 500ms)` (`lib.rs:52`). -/
structure NetEnv where
  connect9876 : Except ConnError Unit

/-- Embedding of `is_backend_running` (`lib.rs:47`): true iff the bounded
TCP connection to `127.0.0.1:9876` succeeds; any error yields false. -/
def is_backend_running (net : NetEnv) : Bool :=
  match net.connect9876 with
  | .ok _ => true
  | .error _ => false

/-- Embedding of `BackendState` (`lib.rs:30`): the tracked child slot
(`Mutex<Option<CommandChild>>`, handles as `Nat`), the recorded PID
(`AtomicU32`, zero meaning "none"), and the shutdown flag (`AtomicBool`). -/
structure BackendState where
  child : Option Nat
  backend_pid : Nat
  is_shutting_down : Bool
deriving DecidableEq, Repr

/-- Embedding of `BackendState::default` (`lib.rs:37`). -/
def BackendState.default : BackendState :=
  { child := none, backend_pid := 0, is_shutting_down := false }

/-- A candidate filesystem path for the backend binary: a directory joined
with a file name (`PathBuf::join` in `lib.rs:475` etc.). -/
structure Path where
  dir : String
  name : String
deriving DecidableEq, Repr

/-- Externally visible actions of the supervision operations, in the order
the source performs them. -/
inductive Action where
  | setShuttingDown
  | killChild (handle : Nat)
  | sigterm (pid : Nat)
  | sleepMs (ms : Nat)
  | sigkill (pid : Nat)
  | spawnDetached (p : Path)
  | spawnDirect (p : Path)
  | spawnSidecar (handle : Nat)
deriving DecidableEq, Repr

/-- Environment facts for the straggler sweep `kill_zombie_backends`
(`lib.rs:69`): PIDs printed by `pgrep -f xfactor-backend` and by
`lsof -ti :9876` (`none` when the command itself fails, matching the
`if let Ok(output)` guards). -/
structure SweepEnv where
  pgrepPids : Option (List Nat)
  lsofPids : Option (List Nat)

/-- Embedding of `kill_zombie_backends` (`lib.rs:69`, Unix branch): SIGKILL
every PID reported by `pgrep -f xfactor-backend`, then every PID reported
by `lsof -ti :9876`; a failed command contributes nothing. -/
def kill_zombie_backends (env : SweepEnv) : List Action :=
  (match env.pgrepPids with
   | some pids => pids.map Action.sigkill
   | none => []) ++
  (match env.lsofPids with
   | some pids => pids.map Action.sigkill
   | none => [])

/-- Embedding of `graceful_kill_backend` (`lib.rs:135`, Unix branch):
store `is_shutting_down := true`; if a tracked child exists, `take()` it
and kill it; if the recorded PID is positive, SIGTERM it, sleep 500ms,
SIGKILL it; finally run `kill_zombie_backends`. -/
def graceful_kill_backend (env : SweepEnv) (s : BackendState) :
    BackendState × List Action :=
  let s := { s with is_shutting_down := true }
  let (s, childActs) :=
    match s.child with
    | some h => ({ s with child := none }, [Action.killChild h])
    | none => (s, ([] : List Action))
  let pid := s.backend_pid
  let pidActs :=
    if pid > 0 then
      [Action.sigterm pid, Action.sleepMs 500, Action.sigkill pid]
    else []
  (s, Action.setShuttingDown :: (childActs ++ pidActs ++ kill_zombie_backends env))

/-- Environment facts for `start_backend`: the outcome of
`app.shell().sidecar("xfactor-backend")` and of `sidecar.spawn()`
(`lib.rs:207`, `lib.rs:211`; a successful spawn yields a child handle). -/
structure SpawnEnv where
  sidecarCmd : Except String Unit
  sidecarSpawn : Except String Nat

/-- Embedding of the `start_backend` command (`lib.rs:185`): error when
shutting down; "already running (tracked)" when a child is tracked;
"already running (external)" when the health probe succeeds; otherwise
create and spawn the sidecar, storing the child handle on success. -/
def start_backend (net : NetEnv) (sp : SpawnEnv) (s : BackendState) :
    Except String String × BackendState × List Action :=
  if s.is_shutting_down then
    (.error "Application is shutting down", s, [])
  else if s.child.isSome then
    (.ok "Backend already running (tracked)", s, [])
  else if is_backend_running net then
    (.ok "Backend already running (external)", s, [])
  else
    match sp.sidecarCmd with
    | .error e => (.error ("Failed to create sidecar command: " ++ e), s, [])
    | .ok _ =>
      match sp.sidecarSpawn with
      | .error e => (.error ("Failed to spawn backend: " ++ e), s, [])
      | .ok h =>
        (.ok "Backend started", { s with child := some h }, [Action.spawnSidecar h])

/-- Embedding of the `stop_backend` command (`lib.rs:226`): run
`graceful_kill_backend` and unconditionally report success. -/
def stop_backend (env : SweepEnv) (s : BackendState) :
    Except String String × BackendState × List Action :=
  let (s, tr) := graceful_kill_backend env s
  (.ok "Backend stopped and cleaned up", s, tr)

/-- Embedding of the `force_cleanup` command (`lib.rs:234`): store
`is_shutting_down := true`, run `graceful_kill_backend`, run
`kill_zombie_backends` again, and unconditionally report success. -/
def force_cleanup (env : SweepEnv) (s : BackendState) :
    Except String String × BackendState × List Action :=
  let s := { s with is_shutting_down := true }
  let (s, tr) := graceful_kill_backend env s
  (.ok "Force cleanup completed", s,
    Action.setShuttingDown :: (tr ++ kill_zombie_backends env))

/-- Embedding of the `check_backend_health` command (`lib.rs:254`): a
placeholder that returns `Ok(true)` unconditionally (the source comment:
"This is just a placeholder that returns true"). -/
def check_backend_health : Except String Bool := .ok true

/-- The ordered binary-name variants searched by the automatic startup task
(`lib.rs:458`). -/
def binary_names : List String :=
  ["xfactor-backend",
   "xfactor-backend-x86_64-apple-darwin",
   "xfactor-backend-aarch64-apple-darwin",
   "xfactor-backend-x86_64-unknown-linux-gnu",
   "xfactor-backend-x86_64-pc-windows-msvc.exe"]

/-- Environment facts for the search roots (`lib.rs:467`, `lib.rs:492`,
`lib.rs:500`): each lookup is `none` when the corresponding `if let Ok`
(or `resource_dir.parent()` / `exe_path.parent()`) fails. -/
structure PathEnv where
  resource_dir : Option String
  resource_parent : Option String
  app_data_dir : Option String
  exe_dir : Option String

/-- Candidates contributed by the resource-directory root block
(`lib.rs:467`): the sibling `MacOS` folder (when the parent exists), the
resource dir itself, and its `binaries` subfolder, each crossed with all
binary names. -/
def resource_candidates (env : PathEnv) : List Path :=
  match env.resource_dir with
  | some rd =>
      (match env.resource_parent with
       | some parent => binary_names.map (fun n => ⟨parent ++ "/MacOS", n⟩)
       | none => []) ++
      binary_names.map (fun n => ⟨rd, n⟩) ++
      binary_names.map (fun n => ⟨rd ++ "/binaries", n⟩)
  | none => []

/-- Candidates contributed by the app-data root block (`lib.rs:492`). -/
def app_data_candidates (env : PathEnv) : List Path :=
  match env.app_data_dir with
  | some ad => binary_names.map (fun n => ⟨ad, n⟩)
  | none => []

/-- Candidates contributed by the executable-directory root block
(`lib.rs:500`): the executable's directory and its `binaries` subfolder. -/
def exe_candidates (env : PathEnv) : List Path :=
  match env.exe_dir with
  | some ed =>
      binary_names.map (fun n => ⟨ed, n⟩) ++
      binary_names.map (fun n => ⟨ed ++ "/binaries", n⟩)
  | none => []

/-- The full ordered candidate list built by the startup task
(`lib.rs:455`-`lib.rs:512`): the three root blocks in source order. -/
def candidates (env : PathEnv) : List Path :=
  resource_candidates env ++ app_data_candidates env ++ exe_candidates env

/-- Embedding of the binary search (`lib.rs:518`):
`candidates.into_iter().find(|p| p.exists())`, with filesystem existence
supplied by the environment. -/
def locate_backend_binary (env : PathEnv) (fsExists : Path → Bool) :
    Option Path :=
  (candidates env).find? fsExists

/-- The declared search roots in priority order, for stating the
root-major ordering of `candidates`. -/
def search_roots (env : PathEnv) : List String :=
  (match env.resource_dir with
   | some rd =>
       (match env.resource_parent with
        | some parent => [parent ++ "/MacOS"]
        | none => []) ++ [rd, rd ++ "/binaries"]
   | none => []) ++
  (match env.app_data_dir with
   | some ad => [ad]
   | none => []) ++
  (match env.exe_dir with
   | some ed => [ed, ed ++ "/binaries"]
   | none => [])

/-- Root-major, name-minor crossing of a root list with `binary_names`. -/
def root_major_candidates : List String → List Path
  | [] => []
  | r :: rest =>
      binary_names.map (fun n => ⟨r, n⟩) ++ root_major_candidates rest

/-- Environment facts for the automatic startup task's launch attempts
(`lib.rs:536`-`lib.rs:641`, Unix branch): the PID of a successful
`setsid`-detached spawn, the PID of a successful direct spawn (tried when
`setsid` fails), and the dev-fallback sidecar creation/spawn outcomes. -/
structure AutoEnv where
  setsidSpawn : Option Nat
  directSpawn : Option Nat
  sidecarCmd : Except String Unit
  sidecarSpawn : Except String Nat

/-- Embedding of the development sidecar fallback of the startup task
(`lib.rs:601`-`lib.rs:641`): try to create and spawn the sidecar; on
success store the child handle; any failure is logged and ignored. -/
def sidecar_fallback (aenv : AutoEnv) (s : BackendState) :
    BackendState × List Action :=
  match aenv.sidecarCmd with
  | .error _ => (s, [])
  | .ok _ =>
    match aenv.sidecarSpawn with
    | .error _ => (s, [])
    | .ok h => ({ s with child := some h }, [Action.spawnSidecar h])

/-- Embedding of the automatic startup task spawned in `run`
(`lib.rs:448`-`lib.rs:643`, Unix branch): locate the binary, then if the
health probe succeeds do nothing; otherwise spawn the located binary
detached via `setsid` (falling back to a direct spawn), recording the PID;
with no binary found, fall back to the dev sidecar. -/
def auto_start (penv : PathEnv) (fsExists : Path → Bool) (net : NetEnv)
    (aenv : AutoEnv) (s : BackendState) : BackendState × List Action :=
  let backend_path := locate_backend_binary penv fsExists
  if is_backend_running net then
    (s, [])
  else
    match backend_path with
    | some backend =>
      match aenv.setsidSpawn with
      | some pid => ({ s with backend_pid := pid }, [Action.spawnDetached backend])
      | none =>
        match aenv.directSpawn with
        | some pid => ({ s with backend_pid := pid }, [Action.spawnDirect backend])
        | none => (s, [])
    | none => sidecar_fallback aenv s

end XFactor

namespace XFactor

/-! ## Helper lemmas -/

/-- Closed-form description of `graceful_kill_backend`: final state and
action trace. -/
theorem graceful_kill_spec (env : SweepEnv) (s : BackendState) :
    graceful_kill_backend env s =
      (⟨none, s.backend_pid, true⟩,
       Action.setShuttingDown ::
         ((match s.child with
           | some h => [Action.killChild h]
           | none => []) ++
          (if s.backend_pid > 0 then
             [Action.sigterm s.backend_pid, Action.sleepMs 500,
              Action.sigkill s.backend_pid]
           else []) ++
          kill_zombie_backends env)) := by
  obtain ⟨c, pid, flag⟩ := s
  cases c <;> simp [graceful_kill_backend]

/-- With the shutdown flag set, `start_backend` errors out and changes
nothing. -/
theorem start_backend_shutting (net : NetEnv) (sp : SpawnEnv)
    (s : BackendState) (h : s.is_shutting_down = true) :
    start_backend net sp s = (.error "Application is shutting down", s, []) := by
  simp [start_backend, h]

/-- `start_backend` never writes the shutdown flag. -/
theorem start_backend_flag (net : NetEnv) (sp : SpawnEnv) (s : BackendState) :
    (start_backend net sp s).2.1.is_shutting_down = s.is_shutting_down := by
  unfold start_backend
  repeat' split
  all_goals rfl

/-- Unfolding of `auto_start` with the located path match exposed. -/
theorem auto_start_def (penv : PathEnv) (fsE : Path → Bool) (net : NetEnv)
    (aenv : AutoEnv) (s : BackendState) :
    auto_start penv fsE net aenv s =
      if is_backend_running net then (s, [])
      else
        match locate_backend_binary penv fsE with
        | some backend =>
          match aenv.setsidSpawn with
          | some pid =>
            ({ s with backend_pid := pid }, [Action.spawnDetached backend])
          | none =>
            match aenv.directSpawn with
            | some pid =>
              ({ s with backend_pid := pid }, [Action.spawnDirect backend])
            | none => (s, [])
        | none => sidecar_fallback aenv s := rfl

/-- The sidecar fallback never writes the shutdown flag. -/
theorem sidecar_fallback_flag (aenv : AutoEnv) (s : BackendState) :
    (sidecar_fallback aenv s).1.is_shutting_down = s.is_shutting_down := by
  unfold sidecar_fallback
  repeat' split
  all_goals rfl

/-- The automatic startup task never writes the shutdown flag. -/
theorem auto_start_flag (penv : PathEnv) (fsE : Path → Bool) (net : NetEnv)
    (aenv : AutoEnv) (s : BackendState) :
    (auto_start penv fsE net aenv s).1.is_shutting_down = s.is_shutting_down := by
  rw [auto_start_def]
  repeat' split
  all_goals (first | rfl | exact sidecar_fallback_flag aenv s)

/-- `find?` returns the element at position `i` when it satisfies the
predicate and every earlier element fails it. -/
theorem find?_of_getElem {α : Type} (f : α → Bool) :
    ∀ (l : List α) (i : Nat) (p : α), l[i]? = some p → f p = true →
      (∀ q ∈ l.take i, f q = false) → l.find? f = some p := by
  intro l
  induction l with
  | nil => intro i p h _ _; simp at h
  | cons a t ih =>
    intro i p hget hfp hpre
    cases i with
    | zero =>
      simp at hget
      subst hget
      exact List.find?_cons_of_pos _ hfp
    | succ n =>
      have hfa : f a = false := hpre a (by simp)
      rw [List.find?_cons_of_neg _ (by simp [hfa])]
      refine ih n p ?_ hfp ?_
      · simpa using hget
      · intro q hq
        exact hpre q (by simp [List.take_succ_cons]; exact Or.inr hq)

/-- The candidate list is the root-major, name-minor crossing of the
declared search roots with the binary-name variants. -/
theorem candidates_root_major (env : PathEnv) :
    candidates env = root_major_candidates (search_roots env) := by
  obtain ⟨rd, rp, ad, ed⟩ := env
  cases rd <;> cases rp <;> cases ad <;> cases ed <;>
    simp [candidates, resource_candidates, app_data_candidates, exe_candidates,
      search_roots, root_major_candidates]

/-- With the shutdown flag set, any sequence of `start_backend` calls
leaves the state fixed. -/
theorem foldl_start_fixed (s : BackendState) (h : s.is_shutting_down = true) :
    ∀ calls : List (NetEnv × SpawnEnv),
      calls.foldl (fun st c => (start_backend c.1 c.2 st).2.1) s = s := by
  intro calls
  induction calls with
  | nil => rfl
  | cons c rest ih =>
    simp only [List.foldl_cons, start_backend_shutting c.1 c.2 s h]
    exact ih

end XFactor

namespace XFactor

/-! ## Claims -/

/-- Claim C1, counterexample: the claim "check_backend_health returns true
if and only if the TCP connection to 127.0.0.1:9876 succeeds" is false at
the concrete environment in which the connection is refused: the command
still returns `Ok true` while the probe reports `false`. -/
theorem claim_C1_counterexample :
    ¬ (check_backend_health =
        Except.ok (is_backend_running ⟨Except.error ConnError.refused⟩)) := by
  simp [check_backend_health, is_backend_running]

/-- Claim C1, amended: `check_backend_health` is a placeholder that returns
`Ok true` unconditionally and does not consult the health probe; the probe
`is_backend_running` itself does return true iff the connection succeeds
and false on any failure. -/
theorem claim_C1_health_placeholder :
    check_backend_health = Except.ok true ∧
    (∀ e : ConnError, is_backend_running ⟨Except.error e⟩ = false) ∧
    is_backend_running ⟨Except.ok ()⟩ = true :=
  ⟨rfl, fun _ => rfl, rfl⟩

/-- Claim C2: `graceful_kill_backend` ends in the state with the shutdown
flag true, the tracked slot empty and the PID unchanged, and its action
trace is exactly: set the flag; kill the tracked child if one exists; if
the recorded PID is nonzero, SIGTERM, a 500ms wait, then SIGKILL
regardless of exit; and finally the straggler sweep, run even when no
handle and no PID were found. -/
theorem claim_C2_graceful_sequence (env : SweepEnv) (s : BackendState) :
    graceful_kill_backend env s =
      (⟨none, s.backend_pid, true⟩,
       Action.setShuttingDown ::
         ((match s.child with
           | some h => [Action.killChild h]
           | none => []) ++
          (if s.backend_pid > 0 then
             [Action.sigterm s.backend_pid, Action.sleepMs 500,
              Action.sigkill s.backend_pid]
           else []) ++
          kill_zombie_backends env)) :=
  graceful_kill_spec env s

/-- Claim C3: in every state with the shutdown flag set, `start_backend`
returns the "Application is shutting down" error, leaves the state (in
particular the tracked-handle slot) unchanged, and performs no action. -/
theorem claim_C3_start_gated_by_shutdown (net : NetEnv) (sp : SpawnEnv)
    (s : BackendState) (h : s.is_shutting_down = true) :
    start_backend net sp s =
      (Except.error "Application is shutting down", s, []) := by
  simp [start_backend, h]

/-- Claim C3, witness. -/
theorem claim_C3_witness :
    start_backend ⟨Except.error ConnError.refused⟩ ⟨Except.ok (), Except.ok 7⟩
        ⟨none, 0, true⟩ =
      (Except.error "Application is shutting down", ⟨none, 0, true⟩, []) :=
  claim_C3_start_gated_by_shutdown _ _ _ rfl

/-- Claim C4: when the health probe reports a backend alive, no shutdown is
in progress and nothing is tracked, `start_backend` returns "already
running (external)" with the state unchanged and no action performed, and
the automatic startup task likewise changes nothing and spawns nothing. -/
theorem claim_C4_reuse_external (net : NetEnv) (sp : SpawnEnv)
    (penv : PathEnv) (fsE : Path → Bool) (aenv : AutoEnv) (s : BackendState)
    (hflag : s.is_shutting_down = false) (hchild : s.child = none)
    (halive : is_backend_running net = true) :
    start_backend net sp s =
      (Except.ok "Backend already running (external)", s, []) ∧
    auto_start penv fsE net aenv s = (s, []) := by
  constructor
  · simp [start_backend, hflag, hchild, halive]
  · rw [auto_start_def, halive]
    simp

/-- Claim C4, witness. -/
theorem claim_C4_witness :
    start_backend ⟨Except.ok ()⟩ ⟨Except.ok (), Except.ok 7⟩
        ⟨none, 0, false⟩ =
      (Except.ok "Backend already running (external)", ⟨none, 0, false⟩, []) ∧
    auto_start ⟨none, none, none, none⟩ (fun _ => false) ⟨Except.ok ()⟩
        ⟨none, none, Except.error "nf", Except.error "nf"⟩ ⟨none, 0, false⟩ =
      (⟨none, 0, false⟩, []) :=
  claim_C4_reuse_external _ _ _ _ _ _ rfl rfl rfl

/-- Claim C5: with a tracked child and the shutdown flag clear, two
successive `start_backend` calls (under arbitrary, possibly different,
environments) both return "already running (tracked)", spawn nothing and
leave the state — tracked slot and recorded PID included — unchanged. -/
theorem claim_C5_start_idempotent (net1 net2 : NetEnv) (sp1 sp2 : SpawnEnv)
    (s : BackendState) (h : Nat) (hflag : s.is_shutting_down = false)
    (hchild : s.child = some h) :
    start_backend net1 sp1 s =
      (Except.ok "Backend already running (tracked)", s, []) ∧
    start_backend net2 sp2 s =
      (Except.ok "Backend already running (tracked)", s, []) := by
  constructor <;> simp [start_backend, hflag, hchild]

/-- Claim C5, witness. -/
theorem claim_C5_witness :
    start_backend ⟨Except.ok ()⟩ ⟨Except.ok (), Except.ok 7⟩
        ⟨some 3, 42, false⟩ =
      (Except.ok "Backend already running (tracked)", ⟨some 3, 42, false⟩, []) ∧
    start_backend ⟨Except.error ConnError.timeout⟩
        ⟨Except.error "nf", Except.error "nf"⟩ ⟨some 3, 42, false⟩ =
      (Except.ok "Backend already running (tracked)", ⟨some 3, 42, false⟩, []) :=
  claim_C5_start_idempotent _ _ _ _ _ 3 rfl rfl

/-- Claim C6: the candidate list is the root-major, name-minor crossing of
the declared search roots with the declared name variants, and the search
resolves to the candidate at position `i` whenever it exists and every
earlier candidate does not: an earlier candidate that exists always wins
over any later one. -/
theorem claim_C6_locator_priority (env : PathEnv) (fsE : Path → Bool)
    (i : Nat) (p : Path) (hget : (candidates env)[i]? = some p)
    (hp : fsE p = true)
    (hpre : ∀ q ∈ (candidates env).take i, fsE q = false) :
    candidates env = root_major_candidates (search_roots env) ∧
    locate_backend_binary env fsE = some p :=
  ⟨candidates_root_major env, find?_of_getElem fsE _ i p hget hp hpre⟩

/-- Claim C6, witness: with the single available root "A" (giving roots
"A" and "A/binaries") both A/(fourth name) and A/binaries/(first name)
exist; the earlier candidate A/(fourth name) wins. -/
theorem claim_C6_witness :
    candidates ⟨some "A", none, none, none⟩ =
      root_major_candidates (search_roots ⟨some "A", none, none, none⟩) ∧
    locate_backend_binary ⟨some "A", none, none, none⟩
        (fun q => q == Path.mk "A" "xfactor-backend-x86_64-unknown-linux-gnu" ||
                  q == Path.mk "A/binaries" "xfactor-backend") =
      some ⟨"A", "xfactor-backend-x86_64-unknown-linux-gnu"⟩ :=
  claim_C6_locator_priority _ _ 3 _ (by decide) (by decide) (by decide)

/-- Claim C7: an unavailable search root (resource directory, app-data
directory or executable directory) only omits that root's candidates; the
search returns nothing — sending the automatic startup task to the
development sidecar fallback — exactly when no candidate from any
available root exists. -/
theorem claim_C7_missing_roots (env : PathEnv) (fsE : Path → Bool)
    (net : NetEnv) (aenv : AutoEnv) (s : BackendState) :
    (env.resource_dir = none →
       candidates env = app_data_candidates env ++ exe_candidates env) ∧
    (env.app_data_dir = none →
       candidates env = resource_candidates env ++ exe_candidates env) ∧
    (env.exe_dir = none →
       candidates env = resource_candidates env ++ app_data_candidates env) ∧
    (locate_backend_binary env fsE = none ↔
       ∀ p ∈ candidates env, fsE p = false) ∧
    (is_backend_running net = false → locate_backend_binary env fsE = none →
       auto_start env fsE net aenv s = sidecar_fallback aenv s) := by
  refine ⟨?_, ?_, ?_, ?_, ?_⟩
  · intro h
    simp [candidates, resource_candidates, h]
  · intro h
    simp [candidates, app_data_candidates, h]
  · intro h
    simp [candidates, exe_candidates, h]
  · simp only [locate_backend_binary, List.find?_eq_none, Bool.not_eq_true]
  · intro hnet hloc
    rw [auto_start_def, hnet, hloc]
    simp

end XFactor

namespace XFactor

/-- Claim C7, witness: with every root unavailable the candidate list is
empty, the search returns nothing, and the startup task falls back to the
development sidecar mechanism. -/
theorem claim_C7_witness :
    candidates ⟨none, none, none, none⟩ =
      app_data_candidates ⟨none, none, none, none⟩ ++
        exe_candidates ⟨none, none, none, none⟩ ∧
    (locate_backend_binary ⟨none, none, none, none⟩ (fun _ => false) = none ↔
       ∀ p ∈ candidates ⟨none, none, none, none⟩, (fun _ => false) p = false) ∧
    auto_start ⟨none, none, none, none⟩ (fun _ => false)
        ⟨Except.error ConnError.refused⟩
        ⟨none, none, Except.error "nf", Except.error "nf"⟩
        BackendState.default =
      sidecar_fallback ⟨none, none, Except.error "nf", Except.error "nf"⟩
        BackendState.default := by
  have h := claim_C7_missing_roots ⟨none, none, none, none⟩ (fun _ => false)
      ⟨Except.error ConnError.refused⟩
      ⟨none, none, Except.error "nf", Except.error "nf"⟩ BackendState.default
  exact ⟨h.1 rfl, h.2.2.2.1, h.2.2.2.2 rfl rfl⟩

/-- Claim C8: `stop_backend` and `force_cleanup` report success from every
starting state and under every sweep environment — no kill or signal
outcome is ever propagated — and both traces end with the straggler sweep,
even from the empty state with no tracked process and a zero PID. -/
theorem claim_C8_stop_always_succeeds (env : SweepEnv) (s : BackendState) :
    (stop_backend env s).1 = Except.ok "Backend stopped and cleaned up" ∧
    (force_cleanup env s).1 = Except.ok "Force cleanup completed" ∧
    (∃ pre, (stop_backend env s).2.2 = pre ++ kill_zombie_backends env) ∧
    (∃ pre, (force_cleanup env s).2.2 = pre ++ kill_zombie_backends env) := by
  have hg := graceful_kill_spec env s
  have hg2 := graceful_kill_spec env { s with is_shutting_down := true }
  refine ⟨?_, ?_, ?_, ?_⟩
  · simp [stop_backend, hg]
  · simp [force_cleanup, hg2]
  · refine ⟨Action.setShuttingDown ::
      ((match s.child with
        | some h => [Action.killChild h]
        | none => []) ++
       (if s.backend_pid > 0 then
          [Action.sigterm s.backend_pid, Action.sleepMs 500,
           Action.sigkill s.backend_pid]
        else [])), ?_⟩
    simp [stop_backend, hg]
  · refine ⟨Action.setShuttingDown ::
      (graceful_kill_backend env { s with is_shutting_down := true }).2, ?_⟩
    simp [force_cleanup]

/-- Claim C9: the shutdown flag is monotonic: once true, it stays true
across every operation of the command surface, the reaper and the
automatic startup task; no operation ever stores false into it. -/
theorem claim_C9_flag_monotonic (net : NetEnv) (sp : SpawnEnv)
    (senv : SweepEnv) (penv : PathEnv) (fsE : Path → Bool) (aenv : AutoEnv)
    (s : BackendState) (h : s.is_shutting_down = true) :
    (start_backend net sp s).2.1.is_shutting_down = true ∧
    (graceful_kill_backend senv s).1.is_shutting_down = true ∧
    (stop_backend senv s).2.1.is_shutting_down = true ∧
    (force_cleanup senv s).2.1.is_shutting_down = true ∧
    (auto_start penv fsE net aenv s).1.is_shutting_down = true := by
  refine ⟨?_, ?_, ?_, ?_, ?_⟩
  · rw [start_backend_flag]; exact h
  · rw [graceful_kill_spec]
  · simp [stop_backend, graceful_kill_spec]
  · simp [force_cleanup, graceful_kill_spec]
  · rw [auto_start_flag]; exact h

/-- Claim C9, witness. -/
theorem claim_C9_witness :
    (start_backend ⟨Except.ok ()⟩ ⟨Except.ok (), Except.ok 7⟩
        ⟨some 1, 2, true⟩).2.1.is_shutting_down = true ∧
    (graceful_kill_backend ⟨some [9], none⟩
        ⟨some 1, 2, true⟩).1.is_shutting_down = true ∧
    (stop_backend ⟨some [9], none⟩ ⟨some 1, 2, true⟩).2.1.is_shutting_down =
      true ∧
    (force_cleanup ⟨some [9], none⟩ ⟨some 1, 2, true⟩).2.1.is_shutting_down =
      true ∧
    (auto_start ⟨none, none, none, none⟩ (fun _ => false) ⟨Except.ok ()⟩
        ⟨none, none, Except.error "nf", Except.error "nf"⟩
        ⟨some 1, 2, true⟩).1.is_shutting_down = true :=
  claim_C9_flag_monotonic _ _ _ _ _ _ _ rfl

/-- Claim C10: stopping is irreversible within a session: after
`stop_backend` or `force_cleanup` the tracked slot is empty, the shutdown
flag is set, every subsequent `start_backend` call returns the
"Application is shutting down" error leaving the state unchanged with no
spawn, and any sequence of subsequent `start_backend` calls leaves the
state fixed. -/
theorem claim_C10_stop_irreversible (senv : SweepEnv) (s : BackendState) :
    (stop_backend senv s).2.1.child = none ∧
    (stop_backend senv s).2.1.is_shutting_down = true ∧
    (∀ (net : NetEnv) (sp : SpawnEnv),
       start_backend net sp (stop_backend senv s).2.1 =
         (Except.error "Application is shutting down",
          (stop_backend senv s).2.1, [])) ∧
    (∀ calls : List (NetEnv × SpawnEnv),
       calls.foldl (fun st c => (start_backend c.1 c.2 st).2.1)
         (stop_backend senv s).2.1 = (stop_backend senv s).2.1) ∧
    (force_cleanup senv s).2.1.child = none ∧
    (force_cleanup senv s).2.1.is_shutting_down = true ∧
    (∀ (net : NetEnv) (sp : SpawnEnv),
       start_backend net sp (force_cleanup senv s).2.1 =
         (Except.error "Application is shutting down",
          (force_cleanup senv s).2.1, [])) ∧
    (∀ calls : List (NetEnv × SpawnEnv),
       calls.foldl (fun st c => (start_backend c.1 c.2 st).2.1)
         (force_cleanup senv s).2.1 = (force_cleanup senv s).2.1) := by
  have hstop : (stop_backend senv s).2.1 = ⟨none, s.backend_pid, true⟩ := by
    simp [stop_backend, graceful_kill_spec]
  have hforce : (force_cleanup senv s).2.1 = ⟨none, s.backend_pid, true⟩ := by
    simp [force_cleanup, graceful_kill_spec]
  rw [hstop, hforce]
  refine ⟨rfl, rfl, ?_, ?_, rfl, rfl, ?_, ?_⟩
  · intro net sp
    exact start_backend_shutting net sp _ rfl
  · exact foldl_start_fixed _ rfl
  · intro net sp
    exact start_backend_shutting net sp _ rfl
  · exact foldl_start_fixed _ rfl

end XFactor
